import Mathlib

/-!
Verification of the Health Status Classification and Trend-Prediction Engine
(`health_analyzer.py`).  The data model and the operations are embedded
shallowly: severities become an inductive type, readings become a structure,
the classifier and aggregator methods become Lean functions that mirror the
Python control flow branch by branch, and the float percentage arithmetic of
the predictor is modelled over `ℚ` with an explicit round-half-even
one-decimal renderer standing in for the `"{x:.1f}"` format.
-/

/-- Severity levels used by the engine.  The source represents them as the
strings "Normal", "Caution", "Warning", "Danger" and "Unknown". -/
inductive Status where
  | Normal
  | Caution
  | Warning
  | Danger
  | Unknown
deriving DecidableEq, Repr, Fintype

/-- Rank of a severity in the total order Danger > Warning > Caution > Normal,
with the sentinel Unknown ranked below/outside the others. -/
def sevRank : Status → Nat
  | Status.Unknown => 0
  | Status.Normal => 1
  | Status.Caution => 2
  | Status.Warning => 3
  | Status.Danger => 4

/-- Maximum of two severities under the order Danger > Warning > Caution > Normal. -/
def sevMax (a b : Status) : Status :=
  if sevRank a < sevRank b then b else a

namespace thresholds

/-- `thresholds['heart_rate']['low']` -/
def heart_rate_low : ℤ := 60

/-- `thresholds['heart_rate']['high']` -/
def heart_rate_high : ℤ := 100

/-- `thresholds['heart_rate']['very_high']` -/
def heart_rate_very_high : ℤ := 120

/-- `thresholds['blood_pressure']['elevated_systolic']` -/
def elevated_systolic : ℤ := 130

/-- `thresholds['blood_pressure']['high_systolic_1']` -/
def high_systolic_1 : ℤ := 140

/-- `thresholds['blood_pressure']['high_systolic_2']` -/
def high_systolic_2 : ℤ := 180

/-- `thresholds['blood_pressure']['high_diastolic_1']` -/
def high_diastolic_1 : ℤ := 90

/-- `thresholds['blood_pressure']['high_diastolic_2']` -/
def high_diastolic_2 : ℤ := 120

/-- `thresholds['oxygen_level']['normal']` -/
def oxygen_normal : ℚ := 95

/-- `thresholds['oxygen_level']['concerning']` -/
def oxygen_concerning : ℚ := 92

/-- `thresholds['oxygen_level']['low']` -/
def oxygen_low : ℚ := 90

/-- `thresholds['temperature']['low']` -/
def temp_low : ℚ := 36.1

/-- `thresholds['temperature']['normal_high']` -/
def temp_normal_high : ℚ := 37.5

/-- `thresholds['temperature']['elevated']` -/
def temp_elevated : ℚ := 38.0

/-- `thresholds['temperature']['high']` -/
def temp_high : ℚ := 39.0

end thresholds

/-- `HealthAnalyzer.analyze_heart_rate`. -/
def analyze_heart_rate (heart_rate : ℤ) : Status × String :=
  if heart_rate < thresholds.heart_rate_low then
    (Status.Warning, "Heart rate is low (" ++ toString heart_rate ++ " BPM)")
  else if heart_rate > thresholds.heart_rate_very_high then
    (Status.Danger, "Heart rate is very high (" ++ toString heart_rate ++ " BPM)")
  else if heart_rate > thresholds.heart_rate_high then
    (Status.Warning, "Heart rate is elevated (" ++ toString heart_rate ++ " BPM)")
  else
    (Status.Normal, "Heart rate is normal (" ++ toString heart_rate ++ " BPM)")

/-- `HealthAnalyzer.analyze_blood_pressure`.  Returns
(overall status, overall message, systolic message, diastolic message). -/
def analyze_blood_pressure (systolic diastolic : ℤ) : Status × String × String × String :=
  let sys :=
    if systolic ≥ thresholds.high_systolic_2 then
      (Status.Danger, "Systolic pressure is very high (" ++ toString systolic ++ " mmHg)")
    else if systolic ≥ thresholds.high_systolic_1 then
      (Status.Warning, "Systolic pressure is high (" ++ toString systolic ++ " mmHg)")
    else if systolic ≥ thresholds.elevated_systolic then
      (Status.Caution, "Systolic pressure is elevated (" ++ toString systolic ++ " mmHg)")
    else
      (Status.Normal, "Systolic pressure is normal (" ++ toString systolic ++ " mmHg)")
  let dia :=
    if diastolic ≥ thresholds.high_diastolic_2 then
      (Status.Danger, "Diastolic pressure is very high (" ++ toString diastolic ++ " mmHg)")
    else if diastolic ≥ thresholds.high_diastolic_1 then
      (Status.Warning, "Diastolic pressure is high (" ++ toString diastolic ++ " mmHg)")
    else
      (Status.Normal, "Diastolic pressure is normal (" ++ toString diastolic ++ " mmHg)")
  let overall_status :=
    if Status.Danger ∈ [sys.1, dia.1] then Status.Danger
    else if Status.Warning ∈ [sys.1, dia.1] then Status.Warning
    else if Status.Caution ∈ [sys.1, dia.1] then Status.Caution
    else Status.Normal
  let overall_msg := "BP: " ++ toString systolic ++ "/" ++ toString diastolic ++ " mmHg"
  (overall_status, overall_msg, sys.2, dia.2)

/-- `HealthAnalyzer.analyze_oxygen_level`. -/
def analyze_oxygen_level (oxygen : ℚ) : Status × String :=
  if oxygen < thresholds.oxygen_low then
    (Status.Danger, "Oxygen level is critically low (" ++ toString oxygen ++ "%)")
  else if oxygen < thresholds.oxygen_concerning then
    (Status.Warning, "Oxygen level is concerning (" ++ toString oxygen ++ "%)")
  else if oxygen < thresholds.oxygen_normal then
    (Status.Caution, "Oxygen level is slightly below normal (" ++ toString oxygen ++ "%)")
  else
    (Status.Normal, "Oxygen level is normal (" ++ toString oxygen ++ "%)")

/-- `HealthAnalyzer.analyze_temperature`. -/
def analyze_temperature (temp : ℚ) : Status × String :=
  if temp > thresholds.temp_high then
    (Status.Danger, "High fever detected (" ++ toString temp ++ "°C)")
  else if temp > thresholds.temp_elevated then
    (Status.Warning, "Elevated temperature (" ++ toString temp ++ "°C)")
  else if temp > thresholds.temp_normal_high then
    (Status.Caution, "Slightly elevated temperature (" ++ toString temp ++ "°C)")
  else if temp < thresholds.temp_low then
    (Status.Warning, "Temperature is below normal (" ++ toString temp ++ "°C)")
  else
    (Status.Normal, "Temperature is normal (" ++ toString temp ++ "°C)")

/-- One health-data record, the 8-tuple
(record_id, user_id, timestamp, heart_rate, bp_sys, bp_dia, oxygen, temp). -/
structure HealthData where
  record_id : ℤ
  user_id : ℤ
  timestamp : String
  heart_rate : ℤ
  bp_sys : ℤ
  bp_dia : ℤ
  oxygen_level : ℚ
  temperature : ℚ
deriving DecidableEq

/-- The "take the worst status" membership chain of
`get_overall_health_status`: Danger if present, else Warning, else Caution,
else Normal. -/
def worstStatus (statuses : List Status) : Status :=
  if Status.Danger ∈ statuses then Status.Danger
  else if Status.Warning ∈ statuses then Status.Warning
  else if Status.Caution ∈ statuses then Status.Caution
  else Status.Normal

/-- `HealthAnalyzer.get_overall_health_status`. -/
def get_overall_health_status (health_data : Option HealthData) : Status × String :=
  match health_data with
  | none => (Status.Unknown, "No health data available")
  | some d =>
    let hr := analyze_heart_rate d.heart_rate
    let bp := analyze_blood_pressure d.bp_sys d.bp_dia
    let ox := analyze_oxygen_level d.oxygen_level
    let tp := analyze_temperature d.temperature
    let warnings :=
      (if hr.1 ≠ Status.Normal then [hr.2] else []) ++
      (if bp.1 ≠ Status.Normal then [bp.2.1] else []) ++
      (if ox.1 ≠ Status.Normal then [ox.2] else []) ++
      (if tp.1 ≠ Status.Normal then [tp.2] else [])
    let overall_status := worstStatus [hr.1, bp.1, ox.1, tp.1]
    let overall_msg :=
      if warnings ≠ [] then "Health concerns: " ++ String.intercalate "; " warnings
      else "All health metrics are within normal ranges"
    (overall_status, overall_msg)

/-- One condition-risk prediction emitted by the trend predictor. -/
structure ConditionPrediction where
  condition : String
  confidence : String
  description : String
deriving DecidableEq

/-- Round a rational to the nearest integer, ties to even: the rounding used
by Python when formatting a float with one decimal place. -/
def roundHalfEven (q : ℚ) : ℤ :=
  let f := ⌊q⌋
  let frac := q - (f : ℚ)
  if frac < 1 / 2 then f
  else if frac > 1 / 2 then f + 1
  else if f % 2 = 0 then f else f + 1

/-- Rendering of a percentage with one decimal place, modelling the
`"{x:.1f}"` format of the source. -/
def formatOneDecimal (q : ℚ) : String :=
  let n := roundHalfEven (q * 10)
  toString (n / 10) ++ "." ++ toString (n % 10)

/-- `HealthAnalyzer.predict_potential_conditions`.  Counter loops are
rendered with `List.countP`; the float percentages are modelled over `ℚ`. -/
def predict_potential_conditions (health_data_history : List HealthData) :
    List ConditionPrediction :=
  if health_data_history = [] then []
  else
    let total_readings := health_data_history.length
    let high_bp_count := health_data_history.countP (fun r =>
      decide (r.bp_sys ≥ thresholds.high_systolic_1 ∨ r.bp_dia ≥ thresholds.high_diastolic_1))
    let high_hr_count := health_data_history.countP (fun r =>
      decide (r.heart_rate > thresholds.heart_rate_high))
    let low_ox_count := health_data_history.countP (fun r =>
      decide (r.oxygen_level < thresholds.oxygen_concerning))
    let high_temp_count := health_data_history.countP (fun r =>
      decide (r.temperature > thresholds.temp_elevated))
    let high_bp_percent : ℚ := ((high_bp_count : ℚ) / (total_readings : ℚ)) * 100
    let high_hr_percent : ℚ := ((high_hr_count : ℚ) / (total_readings : ℚ)) * 100
    let low_ox_percent : ℚ := ((low_ox_count : ℚ) / (total_readings : ℚ)) * 100
    let high_temp_percent : ℚ := ((high_temp_count : ℚ) / (total_readings : ℚ)) * 100
    (if high_bp_percent ≥ 50 then
      [{ condition := "Hypertension Risk",
         confidence := formatOneDecimal high_bp_percent ++ "%",
         description := "Consistently elevated blood pressure readings suggest hypertension risk." }]
     else []) ++
    (if high_hr_percent ≥ 40 then
      [{ condition := "Tachycardia Tendency",
         confidence := formatOneDecimal high_hr_percent ++ "%",
         description := "Frequent elevated heart rate may indicate stress or cardiac issues." }]
     else []) ++
    (if low_ox_percent ≥ 30 then
      [{ condition := "Respiratory Concern",
         confidence := formatOneDecimal low_ox_percent ++ "%",
         description := "Recurring low oxygen levels may indicate respiratory issues." }]
     else []) ++
    (if high_temp_percent ≥ 20 then
      [{ condition := "Recurring Fever",
         confidence := formatOneDecimal high_temp_percent ++ "%",
         description := "Multiple elevated temperature readings suggest infection or inflammation." }]
     else [])

/-- Spec-side systolic severity ladder, written from the words of the spec:
Danger if systolic ≥ 180, Warning if ≥ 140, Caution if ≥ 130, else Normal. -/
def spec_systolic_severity (systolic : ℤ) : Status :=
  if systolic ≥ 180 then Status.Danger
  else if systolic ≥ 140 then Status.Warning
  else if systolic ≥ 130 then Status.Caution
  else Status.Normal

/-- Spec-side diastolic severity ladder, written from the words of the spec:
Danger if diastolic ≥ 120, Warning if ≥ 90, else Normal. -/
def spec_diastolic_severity (diastolic : ℤ) : Status :=
  if diastolic ≥ 120 then Status.Danger
  else if diastolic ≥ 90 then Status.Warning
  else Status.Normal

/-- The four metric verdicts of a reading, in the fixed order heart rate,
blood pressure, oxygen, temperature; for blood pressure the combined
status/message pair is used, as in the aggregator. -/
def metricResults (d : HealthData) : List (Status × String) :=
  [((analyze_heart_rate d.heart_rate).1, (analyze_heart_rate d.heart_rate).2),
   ((analyze_blood_pressure d.bp_sys d.bp_dia).1, (analyze_blood_pressure d.bp_sys d.bp_dia).2.1),
   ((analyze_oxygen_level d.oxygen_level).1, (analyze_oxygen_level d.oxygen_level).2),
   ((analyze_temperature d.temperature).1, (analyze_temperature d.temperature).2)]

/-- Spec-side overall message, written from the words of the spec: collect the
messages of exactly the non-Normal metrics in the fixed order and join them
with the fixed separator, or emit the canonical all-normal message. -/
def spec_overall_message (d : HealthData) : String :=
  let msgs := ((metricResults d).filter (fun m => decide (m.1 ≠ Status.Normal))).map (fun m => m.2)
  if msgs = [] then "All health metrics are within normal ranges"
  else "Health concerns: " ++ String.intercalate "; " msgs

/-- Does the second character list occur at the head of the first? -/
def takesLead : List Char → List Char → Bool
  | _, [] => true
  | [], _ :: _ => false
  | b :: bs, a :: as => a == b && takesLead bs as

/-- Does the second character list occur contiguously inside the first? -/
def occursIn (sub : List Char) : List Char → Bool
  | [] => sub.isEmpty
  | b :: bs => takesLead (b :: bs) sub || occursIn sub bs

/-- Does `sub` occur contiguously inside the string `s`? -/
def strEmbeds (s sub : String) : Bool :=
  occursIn sub.data s.data

/-- A reading whose systolic pressure is the argument and whose other
metrics are unremarkable. -/
def mkBP (s : ℤ) : HealthData :=
  { record_id := 0, user_id := 0, timestamp := "", heart_rate := 80,
    bp_sys := s, bp_dia := 80, oxygen_level := 97, temperature := 37 }

/-- Ten readings, six of which breach the hypertension rule. -/
def historySix : List HealthData :=
  [mkBP 150, mkBP 150, mkBP 150, mkBP 150, mkBP 150, mkBP 150,
   mkBP 120, mkBP 120, mkBP 120, mkBP 120]

/-- Ten readings, four of which breach the hypertension rule. -/
def historyFour : List HealthData :=
  [mkBP 150, mkBP 150, mkBP 150, mkBP 150,
   mkBP 120, mkBP 120, mkBP 120, mkBP 120, mkBP 120, mkBP 120]

/-- A reading breaching exactly the rules selected by the four flags:
blood pressure, heart rate, oxygen, temperature. -/
def mkRecord (b1 b2 b3 b4 : Bool) : HealthData :=
  { record_id := 0, user_id := 0, timestamp := "",
    heart_rate := if b2 then 110 else 80,
    bp_sys := if b1 then 150 else 120,
    bp_dia := 80,
    oxygen_level := if b3 then 90 else 97,
    temperature := if b4 then 39 else 37 }

/-- The reading of the C6 scenario:
heart rate 130, blood pressure 150/95, oxygen 97, temperature 36.8. -/
def scenarioReading : HealthData :=
  { record_id := 0, user_id := 0, timestamp := "", heart_rate := 130,
    bp_sys := 150, bp_dia := 95, oxygen_level := 97, temperature := 36.8 }

/-- The hypertension breach rule applied to one reading:
systolic ≥ 140 or diastolic ≥ 90 (the counting predicate of the
`high_bp_count` loop). -/
def hypertensionBreach (r : HealthData) : Bool :=
  decide (r.bp_sys ≥ thresholds.high_systolic_1 ∨ r.bp_dia ≥ thresholds.high_diastolic_1)

/-! ### Helper lemmas -/

lemma analyze_heart_rate_ne_unknown (h : ℤ) : (analyze_heart_rate h).1 ≠ Status.Unknown := by
  unfold analyze_heart_rate
  split_ifs <;> simp

lemma analyze_blood_pressure_ne_unknown (s d : ℤ) :
    (analyze_blood_pressure s d).1 ≠ Status.Unknown := by
  simp only [analyze_blood_pressure]
  split_ifs <;> decide

lemma analyze_oxygen_level_ne_unknown (o : ℚ) : (analyze_oxygen_level o).1 ≠ Status.Unknown := by
  unfold analyze_oxygen_level
  split_ifs <;> simp

lemma analyze_temperature_ne_unknown (t : ℚ) : (analyze_temperature t).1 ≠ Status.Unknown := by
  unfold analyze_temperature
  split_ifs <;> simp

lemma worstStatus_eq_sevMax : ∀ s1 s2 s3 s4 : Status, s1 ≠ Status.Unknown →
    s2 ≠ Status.Unknown → s3 ≠ Status.Unknown → s4 ≠ Status.Unknown →
    worstStatus [s1, s2, s3, s4] = sevMax (sevMax (sevMax s1 s2) s3) s4 := by
  decide

/-! ### Claims -/

/-- C2: for every heart rate h, `analyze_heart_rate` returns Danger when
h > 120, Normal when 60 ≤ h ≤ 100, Warning when h < 60 or 100 < h ≤ 120;
in particular 120 yields Warning, and 60 and 100 yield Normal. -/
theorem heart_rate_classification : ∀ h : ℤ,
    (h > 120 → (analyze_heart_rate h).1 = Status.Danger) ∧
    (60 ≤ h ∧ h ≤ 100 → (analyze_heart_rate h).1 = Status.Normal) ∧
    (h < 60 ∨ (100 < h ∧ h ≤ 120) → (analyze_heart_rate h).1 = Status.Warning) ∧
    (analyze_heart_rate 120).1 = Status.Warning ∧
    (analyze_heart_rate 60).1 = Status.Normal ∧
    (analyze_heart_rate 100).1 = Status.Normal := by
  intro h
  refine ⟨?_, ?_, ?_, by decide, by decide, by decide⟩ <;>
  · intro hh
    unfold analyze_heart_rate thresholds.heart_rate_low thresholds.heart_rate_high
      thresholds.heart_rate_very_high
    split_ifs <;> first | rfl | (exfalso; omega)

/-- C2 witness: at the concrete boundary inputs 130, 120, 60, 100. -/
theorem heart_rate_classification_witness :
    (analyze_heart_rate 130).1 = Status.Danger := by
  exact (heart_rate_classification 130).1 (by decide)

/-- C7: when no reading is provided, the aggregator returns severity
Unknown with the message "No health data available". -/
theorem overall_status_none :
    get_overall_health_status none = (Status.Unknown, "No health data available") := rfl

/-- C8: the trend predictor returns the empty list on an empty history. -/
theorem predict_empty : predict_potential_conditions [] = [] := by
  simp [predict_potential_conditions]

/-- C1: the severity of `get_overall_health_status` on a reading is the
maximum, under Danger > Warning > Caution > Normal, of the four metric
severities, and calling it twice on the same reading gives the same result. -/
theorem overall_status_is_max : ∀ d : HealthData,
    (get_overall_health_status (some d)).1 =
      sevMax (sevMax (sevMax (analyze_heart_rate d.heart_rate).1
        (analyze_blood_pressure d.bp_sys d.bp_dia).1)
        (analyze_oxygen_level d.oxygen_level).1)
        (analyze_temperature d.temperature).1 ∧
    get_overall_health_status (some d) = get_overall_health_status (some d) := by
  intro d
  refine ⟨?_, rfl⟩
  show worstStatus [(analyze_heart_rate d.heart_rate).1,
    (analyze_blood_pressure d.bp_sys d.bp_dia).1,
    (analyze_oxygen_level d.oxygen_level).1,
    (analyze_temperature d.temperature).1] = _
  exact worstStatus_eq_sevMax _ _ _ _
    (analyze_heart_rate_ne_unknown _) (analyze_blood_pressure_ne_unknown _ _)
    (analyze_oxygen_level_ne_unknown _) (analyze_temperature_ne_unknown _)

/-- C1 witness: the maximum property instantiated at a concrete reading. -/
theorem overall_status_is_max_witness :
    (get_overall_health_status (some (mkBP 150))).1 =
      sevMax (sevMax (sevMax (analyze_heart_rate (mkBP 150).heart_rate).1
        (analyze_blood_pressure (mkBP 150).bp_sys (mkBP 150).bp_dia).1)
        (analyze_oxygen_level (mkBP 150).oxygen_level).1)
        (analyze_temperature (mkBP 150).temperature).1 :=
  (overall_status_is_max (mkBP 150)).1

/-- C3: the combined blood-pressure severity is the maximum of the systolic
and diastolic severities under Danger > Warning > Caution > Normal, and the
two sub-messages are always returned alongside it, each depending only on
its own input. -/
theorem blood_pressure_max : ∀ systolic diastolic : ℤ,
    (analyze_blood_pressure systolic diastolic).1 =
      sevMax (spec_systolic_severity systolic) (spec_diastolic_severity diastolic) ∧
    (∀ d2 : ℤ, (analyze_blood_pressure systolic diastolic).2.2.1 =
       (analyze_blood_pressure systolic d2).2.2.1) ∧
    (∀ s2 : ℤ, (analyze_blood_pressure systolic diastolic).2.2.2 =
       (analyze_blood_pressure s2 diastolic).2.2.2) := by
  intro s d
  refine ⟨?_, fun d2 => rfl, fun s2 => rfl⟩
  simp only [analyze_blood_pressure, spec_systolic_severity, spec_diastolic_severity,
    thresholds.high_systolic_1, thresholds.high_systolic_2, thresholds.elevated_systolic,
    thresholds.high_diastolic_1, thresholds.high_diastolic_2]
  split_ifs <;> simp_all <;> rfl

/-- C3 witness: the maximum property instantiated at systolic 150,
diastolic 95. -/
theorem blood_pressure_max_witness :
    (analyze_blood_pressure 150 95).1 =
      sevMax (spec_systolic_severity 150) (spec_diastolic_severity 95) :=
  (blood_pressure_max 150 95).1

lemma takesLead_append_self (mid post : List Char) : takesLead (mid ++ post) mid = true := by
  induction mid with
  | nil => cases post <;> rfl
  | cons a as ih => simp [takesLead, ih]

lemma occursIn_nil_sub (l : List Char) : occursIn [] l = true := by
  cases l <;> simp [occursIn, takesLead, List.isEmpty]

lemma occursIn_append_left (pre : List Char) {sub l : List Char}
    (h : occursIn sub l = true) : occursIn sub (pre ++ l) = true := by
  induction pre with
  | nil => exact h
  | cons b bs ih => simp [occursIn, ih]

lemma occursIn_self_append (sub post : List Char) : occursIn sub (sub ++ post) = true := by
  cases sub with
  | nil => exact occursIn_nil_sub post
  | cons a as =>
    simp only [occursIn, Bool.or_eq_true]
    exact Or.inl (takesLead_append_self (a :: as) post)

lemma strEmbeds_concat (pre mid post : String) : strEmbeds (pre ++ mid ++ post) mid = true := by
  unfold strEmbeds
  rw [String.data_append, String.data_append, List.append_assoc]
  exact occursIn_append_left _ (occursIn_self_append _ _)

/-- C9 counterexample: at heart rate 130 the classification is non-Normal,
yet the message names no condition — neither "Tachycardia" nor
"Bradycardia" occurs in it, refuting the claim at this input. -/
theorem heart_rate_message_counterexample :
    (analyze_heart_rate 130).1 ≠ Status.Normal ∧
    (analyze_heart_rate 130).2 = "Heart rate is very high (130 BPM)" ∧
    strEmbeds (analyze_heart_rate 130).2 "Tachycardia" = false ∧
    strEmbeds (analyze_heart_rate 130).2 "Bradycardia" = false := by
  decide

/-- C9 (amended): for every heart rate whose classification is non-Normal,
the message embeds the numeric heart-rate value (but names no clinical
condition such as Tachycardia or Bradycardia). -/
theorem heart_rate_message_embeds_value : ∀ h : ℤ,
    (analyze_heart_rate h).1 ≠ Status.Normal →
    strEmbeds (analyze_heart_rate h).2 (toString h) = true := by
  intro h hn
  unfold analyze_heart_rate at *
  split_ifs at * with h1 h2 h3
  · exact strEmbeds_concat "Heart rate is low (" (toString h) " BPM)"
  · exact strEmbeds_concat "Heart rate is very high (" (toString h) " BPM)"
  · exact strEmbeds_concat "Heart rate is elevated (" (toString h) " BPM)"
  · simp at hn

/-- C9 witness: the amended property instantiated at heart rate 130. -/
theorem heart_rate_message_embeds_value_witness :
    strEmbeds (analyze_heart_rate 130).2 (toString (130 : ℤ)) = true :=
  heart_rate_message_embeds_value 130 (by decide)

/-- C6: the overall message is built from the messages of exactly the
non-Normal metrics, in the fixed order heart rate, blood pressure, oxygen,
temperature, joined with the fixed separator, or is the canonical all-normal
message when every metric is Normal; in the concrete scenario
(130, 150/95, 97, 36.8) it lists the heart-rate and blood-pressure messages
and omits oxygen and temperature. -/
theorem overall_message_structure :
    (∀ d : HealthData, (get_overall_health_status (some d)).2 = spec_overall_message d) ∧
    get_overall_health_status (some scenarioReading) =
      (Status.Danger,
       "Health concerns: Heart rate is very high (130 BPM); BP: 150/95 mmHg") := by
  constructor
  · intro d
    rcases eq_or_ne (analyze_heart_rate d.heart_rate).1 Status.Normal with h1 | h1 <;>
    rcases eq_or_ne (analyze_blood_pressure d.bp_sys d.bp_dia).1 Status.Normal with h2 | h2 <;>
    rcases eq_or_ne (analyze_oxygen_level d.oxygen_level).1 Status.Normal with h3 | h3 <;>
    rcases eq_or_ne (analyze_temperature d.temperature).1 Status.Normal with h4 | h4 <;>
    simp [get_overall_health_status, spec_overall_message, metricResults, h1, h2, h3, h4]
  · norm_num [scenarioReading, get_overall_health_status, analyze_heart_rate, analyze_blood_pressure,
      analyze_oxygen_level, analyze_temperature, worstStatus,
      thresholds.heart_rate_low, thresholds.heart_rate_high, thresholds.heart_rate_very_high,
      thresholds.high_systolic_1, thresholds.high_systolic_2, thresholds.elevated_systolic,
      thresholds.high_diastolic_1, thresholds.high_diastolic_2,
      thresholds.oxygen_low, thresholds.oxygen_concerning, thresholds.oxygen_normal,
      thresholds.temp_low, thresholds.temp_normal_high, thresholds.temp_elevated,
      thresholds.temp_high]
    decide

/-- C6 witness: the message-structure property instantiated at a concrete
reading. -/
theorem overall_message_structure_witness :
    (get_overall_health_status (some (mkBP 150))).2 = spec_overall_message (mkBP 150) :=
  overall_message_structure.1 (mkBP 150)

lemma percent_ge_iff (x : ℚ) : x * 100 ≥ 50 ↔ x ≥ 1 / 2 := by
  constructor <;> intro h <;> linarith

lemma mem_rule {c : Prop} [Decidable c] {q p : ConditionPrediction} :
    p ∈ (if c then [q] else []) ↔ c ∧ p = q := by
  split <;> simp_all

lemma formatOneDecimal_intCast (n : ℤ) :
    formatOneDecimal ((n : ℚ)) = toString n ++ "." ++ toString (0 : ℤ) := by
  simp only [formatOneDecimal, roundHalfEven]
  have h1 : ((n : ℚ)) * 10 = ((10 * n : ℤ) : ℚ) := by push_cast; ring
  rw [h1, Int.floor_intCast, sub_self]
  rw [if_pos (by norm_num : (0 : ℚ) < 1 / 2)]
  have e1 : (10 * n) / 10 = n := by omega
  have e2 : (10 * n) % 10 = 0 := by omega
  rw [e1, e2]

lemma rule_cons_sublist {α : Type} (c : Prop) [Decidable c] (x : α) {l1 l2 : List α}
    (h : List.Sublist l1 l2) : List.Sublist ((if c then [x] else []) ++ l1) (x :: l2) := by
  split
  · exact h.cons₂ x
  · exact h.cons x

lemma rule_singleton_sublist {α : Type} (c : Prop) [Decidable c] (x : α) :
    List.Sublist (if c then [x] else []) [x] := by
  split
  · exact List.Sublist.refl _
  · exact List.nil_sublist _

/-- C4: for every non-empty history, a Hypertension Risk prediction is
emitted iff the fraction of readings with systolic ≥ 140 or diastolic ≥ 90 is
at least one half, and its confidence is that fraction times 100 rendered
with one decimal place; 6 breaching readings out of 10 give "60.0%", while
4 out of 10 give no Hypertension Risk prediction. -/
theorem hypertension_rule :
    (∀ history : List HealthData, history ≠ [] →
      (((∃ p ∈ predict_potential_conditions history, p.condition = "Hypertension Risk") ↔
          ((history.countP hypertensionBreach : ℚ) / (history.length : ℚ) ≥ 1 / 2)) ∧
        (∀ p ∈ predict_potential_conditions history, p.condition = "Hypertension Risk" →
          p.confidence =
            formatOneDecimal
              (((history.countP hypertensionBreach : ℚ) / (history.length : ℚ)) * 100) ++ "%"))) ∧
    (∃ p ∈ predict_potential_conditions historySix,
        p.condition = "Hypertension Risk" ∧ p.confidence = "60.0%") ∧
    (∀ p ∈ predict_potential_conditions historyFour, p.condition ≠ "Hypertension Risk") := by
  have hgen : ∀ history : List HealthData, history ≠ [] →
      (((∃ p ∈ predict_potential_conditions history, p.condition = "Hypertension Risk") ↔
          ((history.countP hypertensionBreach : ℚ) / (history.length : ℚ) ≥ 1 / 2)) ∧
        (∀ p ∈ predict_potential_conditions history, p.condition = "Hypertension Risk" →
          p.confidence =
            formatOneDecimal
              (((history.countP hypertensionBreach : ℚ) / (history.length : ℚ)) * 100) ++ "%")) := by
    intro history hne
    unfold predict_potential_conditions
    rw [if_neg hne]
    constructor
    · rw [← percent_ge_iff]
      constructor
      · rintro ⟨p, hp, hcond⟩
        simp only [List.mem_append, mem_rule] at hp
        rcases hp with ((⟨hc, rfl⟩ | ⟨hc, rfl⟩) | ⟨hc, rfl⟩) | ⟨hc, rfl⟩
        · exact hc
        · exact absurd hcond
            (show ("Tachycardia Tendency" : String) ≠ "Hypertension Risk" by decide)
        · exact absurd hcond
            (show ("Respiratory Concern" : String) ≠ "Hypertension Risk" by decide)
        · exact absurd hcond
            (show ("Recurring Fever" : String) ≠ "Hypertension Risk" by decide)
      · intro hge
        exact ⟨_, by
          simp only [List.mem_append, mem_rule]
          exact Or.inl (Or.inl (Or.inl ⟨hge, rfl⟩)), rfl⟩
    · intro p hp hcond
      simp only [List.mem_append, mem_rule] at hp
      rcases hp with ((⟨hc, rfl⟩ | ⟨hc, rfl⟩) | ⟨hc, rfl⟩) | ⟨hc, rfl⟩
      · rfl
      · exact absurd hcond
          (show ("Tachycardia Tendency" : String) ≠ "Hypertension Risk" by decide)
      · exact absurd hcond
          (show ("Respiratory Concern" : String) ≠ "Hypertension Risk" by decide)
      · exact absurd hcond
          (show ("Recurring Fever" : String) ≠ "Hypertension Risk" by decide)
  refine ⟨hgen, ?_, ?_⟩
  · have hne : historySix ≠ [] := by simp [historySix]
    have hfrac : (historySix.countP hypertensionBreach : ℚ) / (historySix.length : ℚ) ≥ 1 / 2 := by
      norm_num [historySix, mkBP, hypertensionBreach, List.countP_cons, List.countP_nil,
        thresholds.high_systolic_1, thresholds.high_diastolic_1]
    obtain ⟨p, hp, hcond⟩ := ((hgen historySix hne).1).mpr hfrac
    refine ⟨p, hp, hcond, ?_⟩
    rw [(hgen historySix hne).2 p hp hcond]
    have e1 : ((historySix.countP hypertensionBreach : ℚ) / (historySix.length : ℚ)) * 100 =
        ((60 : ℤ) : ℚ) := by
      norm_num [historySix, mkBP, hypertensionBreach, List.countP_cons, List.countP_nil,
        thresholds.high_systolic_1, thresholds.high_diastolic_1]
    rw [e1, formatOneDecimal_intCast]
    decide
  · intro p hp
    intro hcond
    have hge : (historyFour.countP hypertensionBreach : ℚ) / (historyFour.length : ℚ) ≥ 1 / 2 :=
      ((hgen historyFour (by simp [historyFour])).1).mp ⟨p, hp, hcond⟩
    norm_num [historyFour, mkBP, hypertensionBreach, List.countP_cons, List.countP_nil,
      thresholds.high_systolic_1, thresholds.high_diastolic_1] at hge

/-- C4 witness: the emission rule instantiated at the concrete ten-reading
history with six breaches. -/
theorem hypertension_rule_witness :
    (∃ p ∈ predict_potential_conditions historySix, p.condition = "Hypertension Risk") ↔
      ((historySix.countP hypertensionBreach : ℚ) / (historySix.length : ℚ) ≥ 1 / 2) :=
  ((hypertension_rule.1 historySix (by simp [historySix])).1)

/-- C5: every prediction is one of the four conditions, emitted in the fixed
order Hypertension Risk, Tachycardia Tendency, Respiratory Concern,
Recurring Fever (the condition list is always a sublist of that order), and
the rules fire independently: every subset of the four is realised by some
window. -/
theorem predictions_shape :
    (∀ history : List HealthData,
      List.Sublist ((predict_potential_conditions history).map (fun p => p.condition))
        ["Hypertension Risk", "Tachycardia Tendency", "Respiratory Concern",
         "Recurring Fever"]) ∧
    (∀ b1 b2 b3 b4 : Bool,
      (predict_potential_conditions [mkRecord b1 b2 b3 b4]).map (fun p => p.condition) =
        (if b1 then ["Hypertension Risk"] else []) ++
        (if b2 then ["Tachycardia Tendency"] else []) ++
        (if b3 then ["Respiratory Concern"] else []) ++
        (if b4 then ["Recurring Fever"] else [])) := by
  constructor
  · intro history
    unfold predict_potential_conditions
    split
    · simp
    · simp only [List.map_append, List.append_assoc,
        apply_ite (List.map (fun p : ConditionPrediction => p.condition)),
        List.map_cons, List.map_nil]
      apply rule_cons_sublist
      apply rule_cons_sublist
      apply rule_cons_sublist
      apply rule_singleton_sublist
  · intro b1 b2 b3 b4
    cases b1 <;> cases b2 <;> cases b3 <;> cases b4 <;>
      norm_num [predict_potential_conditions, mkRecord, List.countP_cons, List.countP_nil,
        thresholds.high_systolic_1, thresholds.high_diastolic_1, thresholds.heart_rate_high,
        thresholds.oxygen_concerning, thresholds.temp_elevated]

/-- C5 witness: the order property instantiated at a window firing all four
rules. -/
theorem predictions_shape_witness :
    List.Sublist
      ((predict_potential_conditions [mkRecord true true true true]).map
        (fun p => p.condition))
      ["Hypertension Risk", "Tachycardia Tendency", "Respiratory Concern",
       "Recurring Fever"] :=
  predictions_shape.1 [mkRecord true true true true]

/-- C10: the predictor is total: on the empty history it returns the empty
list without dividing, and whenever the percentage divisions are reached the
divisor, the number of readings, is positive. -/
theorem predict_total : ∀ history : List HealthData,
    (history = [] → predict_potential_conditions history = []) ∧
    (history ≠ [] → 0 < history.length) := by
  intro history
  constructor
  · intro he
    simp [predict_potential_conditions, he]
  · intro hne
    exact List.length_pos.mpr hne

/-- C10 witness: instantiated at the empty history and at a concrete
non-empty history. -/
theorem predict_total_witness :
    predict_potential_conditions [] = [] ∧ 0 < historySix.length :=
  ⟨(predict_total []).1 rfl, (predict_total historySix).2 (by simp [historySix])⟩
